import Mathlib

/-!
Verification of `Data-driven experiment/solver_tools.py`.

The module is glue code over the `tedeous` solver framework and `torch`.
We embed its four functions shallowly:

  * `get_grid_for_solver` — wraps the coordinate list in a singleton list,
    builds a tensor and reshapes it to a column (`reshape(-1, 1).float()`).
    Tensor construction fails on a non-numeric entry (torch raises);
    numeric values are modelled exactly as rationals, the `.float()`
    precision cast is modelled as the identity on values.
  * `set_boundary` — iterates `zip(arg_values, func_values, variable_names)`
    and records one Dirichlet condition per triple.  Python's `zip`
    truncates to the shortest of the three sequences and never raises.
    The Python default for `variable_names` is the string literal `y`;
    iterating that string yields exactly one element, the character `y`.
  * `get_nn` — a fixed `torch.nn.Sequential` architecture, modelled as the
    list of its layers.
  * `get_solution` — straight-line construction of the solver
    configuration (grids, domain, boundaries, equation, net choice,
    compile options, callbacks, optimizer) handed to `tedeous`.
    The training loop itself (`Model.train` plus the `EarlyStopping`
    callback) lives inside `tedeous`, not in this repository, and is
    modelled from the spec where a claim needs it.
-/

/-- An entry of the Python coordinate list: either a numeric value
(int/float, modelled as a rational) or a non-numeric object, on which
`torch.tensor` raises. -/
inductive Entry where
  | num (x : ℚ) : Entry
  | nonNum : Entry
deriving DecidableEq, Repr

/-- Errors raised by `torch` during tensor construction: handing a
non-numeric entry to `torch.tensor` raises a `TypeError`
("invalid data type").  No custom grid error type exists in the code. -/
inductive TorchError where
  | invalidDataType : TorchError
deriving DecidableEq, Repr

/-- A two-dimensional `torch` tensor: a shape `(rows, cols)` plus the
row-major data, values modelled as exact rationals. -/
structure Tensor2 where
  rows : ℕ
  cols : ℕ
  data : List ℚ
deriving DecidableEq, Repr

/-- Checks every entry of the list is numeric and extracts the values, as
`torch.tensor` does on a Python list; a non-numeric entry raises. -/
def extract_nums : List Entry → Except TorchError (List ℚ)
  | [] => .ok []
  | .num x :: rest => (extract_nums rest).map (fun xs => x :: xs)
  | .nonNum :: _ => .error .invalidDataType

/-- Reshape a tensor to a column: `t.reshape(-1, 1)` keeps the row-major
data and infers the row count from the element count. -/
def reshape_col (t : Tensor2) : Tensor2 :=
  { rows := t.data.length, cols := 1, data := t.data }

/-- Embedding of `get_grid_for_solver(arg0)`:
`coord_list_train = [arg0]` gives a `(1, len(arg0))` tensor (raising if
some entry is non-numeric), then `reshape(-1, 1).float()` produces the
`(N, 1)` column; the `.float()` cast is value-preserving in this model. -/
def get_grid_for_solver (arg0 : List Entry) : Except TorchError Tensor2 := do
  let vals ← extract_nums arg0
  let coord_list_train : Tensor2 := { rows := 1, cols := arg0.length, data := vals }
  pure (reshape_col coord_list_train)

/-- A Dirichlet boundary condition as recorded by
`boundaries.dirichlet({var_name: arg_val}, value=func_val)`. -/
structure BoundaryCondition where
  variable_name : String
  location : ℚ
  target_value : ℚ
deriving DecidableEq, Repr

/-- Embedding of `set_boundary(arg_values, func_values, variable_names)`:
one Dirichlet condition per element of
`zip(arg_values, func_values, variable_names)`, in iteration order.
Python's `zip` stops at the shortest sequence, so the recursion returns
`[]` as soon as any of the three lists is exhausted. -/
def set_boundary : List ℚ → List ℚ → List String → List BoundaryCondition
  | arg_val :: args, func_val :: funcs, var_name :: vars =>
      { variable_name := var_name, location := arg_val, target_value := func_val } ::
        set_boundary args funcs vars
  | _, _, _ => []

/-- The Python default for `variable_names` is the string literal `y`;
`zip` iterates its characters, so the default behaves as the
one-element sequence containing `y`. -/
def default_variable_names : List String := ["y"]

/-- A layer of a `torch.nn.Sequential` model: a linear transform with its
in/out feature counts, or a hyperbolic-tangent activation. -/
inductive Layer where
  | linear (in_features out_features : ℕ) : Layer
  | tanh : Layer
deriving DecidableEq, Repr

/-- Embedding of `get_nn()`: the fixed `torch.nn.Sequential` architecture,
as the ordered list of its layers. -/
def get_nn : List Layer :=
  [Layer.linear 1 100, Layer.tanh,
   Layer.linear 100 100, Layer.tanh,
   Layer.linear 100 100, Layer.tanh,
   Layer.linear 100 1]

theorem extract_nums_map_num (xs : List ℚ) :
    extract_nums (xs.map Entry.num) = .ok xs := by
  induction xs with
  | nil => rfl
  | cons x xs ih => simp [extract_nums, ih, Except.map]

theorem get_grid_for_solver_numeric (xs : List ℚ) :
    get_grid_for_solver (xs.map Entry.num) =
      .ok { rows := xs.length, cols := 1, data := xs } := by
  simp [get_grid_for_solver, extract_nums_map_num, reshape_col, Except.bind]

theorem extract_nums_err_of_nonNum (xs : List Entry) (h : Entry.nonNum ∈ xs) :
    extract_nums xs = .error .invalidDataType := by
  induction xs with
  | nil => cases h
  | cons e rest ih =>
      cases e with
      | nonNum => rfl
      | num x =>
          have hr : Entry.nonNum ∈ rest := by
            simpa using h
          simp [extract_nums, ih hr, Except.map]

theorem set_boundary_length (a f : List ℚ) (v : List String) :
    (set_boundary a f v).length = min a.length (min f.length v.length) := by
  induction a generalizing f v with
  | nil => simp [set_boundary]
  | cons x xs ih =>
      cases f with
      | nil => simp [set_boundary]
      | cons y ys =>
          cases v with
          | nil => simp [set_boundary]
          | cons z zs =>
              simp only [set_boundary, List.length_cons, ih]
              omega

theorem set_boundary_get (a f : List ℚ) (v : List String) (i : ℕ)
    (hL : i < (set_boundary a f v).length)
    (ha : i < a.length) (hf : i < f.length) (hv : i < v.length) :
    (set_boundary a f v).get ⟨i, hL⟩ =
      { variable_name := v.get ⟨i, hv⟩,
        location := a.get ⟨i, ha⟩,
        target_value := f.get ⟨i, hf⟩ } := by
  induction a generalizing f v i with
  | nil => simp at ha
  | cons x xs ih =>
      cases f with
      | nil => simp at hf
      | cons y ys =>
          cases v with
          | nil => simp at hv
          | cons z zs =>
              cases i with
              | zero => rfl
              | succ n =>
                  have hL2 : n < (set_boundary xs ys zs).length := by
                    simpa [set_boundary] using hL
                  simpa [set_boundary] using
                    ih ys zs n hL2 (by simpa using ha) (by simpa using hf)
                      (by simpa using hv)

/-- Configuration of the `early_stopping.EarlyStopping` callback exactly as
`get_solution` constructs it. -/
structure EarlyStoppingConfig where
  eps : ℚ
  loss_window : ℕ
  no_improvement_patience : ℕ
  patience : ℕ
  randomize_parameter : ℚ
  info_string_every : ℕ
deriving DecidableEq, Repr

/-- Configuration of the `plot.Plots` callback exactly as `get_solution`
constructs it (`print_every=None` is `none`). -/
structure PlotsConfig where
  save_every : ℕ
  print_every : Option ℕ
  img_dir : String
deriving DecidableEq, Repr

/-- Configuration of the `Optimizer` exactly as `get_solution` constructs
it: algorithm name and learning rate. -/
structure OptimizerConfig where
  name : String
  lr : ℚ
deriving DecidableEq, Repr

/-- The approximator chosen by `get_solution`: the `get_nn()` network when
`mode` is `NN` or `autograd`, otherwise the `mat_model(domain, equation)`
grid table. -/
inductive NetChoice where
  | network (layers : List Layer) : NetChoice
  | matModel : NetChoice
deriving DecidableEq, Repr

/-- Everything `get_solution` constructs and hands to the `tedeous` solver
before `model.train` runs: grids, domain variables, boundary conditions,
equation terms, net choice, compile options, callbacks, optimizer and the
epoch budget. -/
structure SolveConfig (E : Type) where
  grid_training : Tensor2
  grid_test : Tensor2
  domain_variables : List (String × Tensor2)
  boundaries : List BoundaryCondition
  equation_terms : List E
  net : NetChoice
  compile_mode : String
  lambda_operator : ℚ
  lambda_bound : ℚ
  es : EarlyStoppingConfig
  plots : PlotsConfig
  optimizer : OptimizerConfig
  training_epochs : ℕ
  save_model : Bool

/-- Embedding of `get_solution(eq, poynting_vec, grid_training, grid_test,
img_dir, training_epochs, mode)` up to the `model.train` call: every
construction step of the body, in order.  The grids passed in are numpy
arrays, hence numeric.  The equation is treated opaquely (type `E`), as the
body only stores it via `equation.add(eq)`.  `poynting_vec` is a parameter
of the Python function that its body never mentions. -/
def get_solution {E : Type} (eq : E) (poynting_vec : List ℚ)
    (grid_training grid_test : List ℚ) (img_dir : String)
    (training_epochs : ℕ) (mode : String) :
    Except TorchError (SolveConfig E) := do
  let grid_training_t ← get_grid_for_solver (grid_training.map Entry.num)
  let grid_test_t ← get_grid_for_solver (grid_test.map Entry.num)
  pure
    { grid_training := grid_training_t
      grid_test := grid_test_t
      domain_variables := [("y", grid_training_t)]
      boundaries := set_boundary [0] [-1] default_variable_names
      equation_terms := [eq]
      net := if mode = "NN" ∨ mode = "autograd" then .network get_nn else .matModel
      compile_mode := mode
      lambda_operator := 1
      lambda_bound := 40
      es := { eps := 1 / 1000000, loss_window := 100,
              no_improvement_patience := 1000, patience := 3,
              randomize_parameter := 1 / 100000, info_string_every := 1000 }
      plots := { save_every := 1000, print_every := none, img_dir := img_dir }
      optimizer := { name := "Adam", lr := 1 / 1000 }
      training_epochs := training_epochs
      save_model := false }

/-- Modelled from the spec: `Model.compile` (inside `tedeous`, not in this
repository) composes the scalar objective as
`lambda_operator * residual_loss + lambda_bound * boundary_loss`. -/
def composeLoss (lambda_operator lambda_bound residual_loss boundary_loss : ℚ) : ℚ :=
  lambda_operator * residual_loss + lambda_bound * boundary_loss

/-- Modelled from the spec: the states of the `tedeous` training loop
(`Model.train` with the `EarlyStopping` callback, code not in this
repository): `RUNNING` with the three terminal outcomes. -/
inductive TrainState where
  | RUNNING : TrainState
  | CONVERGED : TrainState
  | MAX_EPOCHS_REACHED : TrainState
  | STAGNATED : TrainState
deriving DecidableEq, Repr

/-- Modelled from the spec: the mutable state of the early-stopping policy,
a sliding window of recent losses (most recent first), the best window
mean seen so far, the no-improvement counter, the patience counter and the
count of random parameter perturbations triggered on stagnation. -/
structure ESState where
  window : List ℚ
  best_loss : Option ℚ
  no_improvement_count : ℕ
  patience_count : ℕ
  randomize_trigger_count : ℕ
deriving DecidableEq, Repr

/-- Mean of a loss window (the window is non-empty whenever it is read). -/
def listMean (xs : List ℚ) : ℚ := xs.sum / xs.length

/-- Modelled from the spec: one `shouldStop` consultation of the
early-stopping policy after appending the step's loss to the window.
An improvement of the window mean by more than `eps` updates `best_loss`
and resets the no-improvement counter; otherwise the counter grows, and on
reaching `no_improvement_patience` the policy perturbs the parameters
(counted here), resets the counter and spends one unit of patience.
The returned flag is true when `patience` is exhausted, which the loop
maps to `STAGNATED`. -/
def esStep (cfg : EarlyStoppingConfig) (s : ESState) (loss : ℚ) : ESState × Bool :=
  let w := (loss :: s.window).take cfg.loss_window
  let m := listMean w
  let s1 : ESState :=
    match s.best_loss with
    | none => { s with window := w, best_loss := some m, no_improvement_count := 0 }
    | some b =>
        if b - m > cfg.eps then
          { s with window := w, best_loss := some m, no_improvement_count := 0 }
        else
          { s with window := w, no_improvement_count := s.no_improvement_count + 1 }
  let s2 : ESState :=
    if cfg.no_improvement_patience ≤ s1.no_improvement_count then
      { s1 with no_improvement_count := 0,
                patience_count := s1.patience_count + 1,
                randomize_trigger_count := s1.randomize_trigger_count + 1 }
    else s1
  (s2, decide (cfg.patience ≤ s2.patience_count))

/-- Modelled from the spec: the loop-visible training state, a step
counter, the early-stopping state and the loop status. -/
structure LoopState where
  step_count : ℕ
  es : ESState
  status : TrainState
deriving DecidableEq, Repr

/-- Modelled from the spec: one per-step transition of the training loop.
A terminal state is absorbing.  From `RUNNING` the step consults the
early-stopping policy on the step's loss; a stop signal ends the loop as
`STAGNATED`, otherwise the loop continues while the step count stays below
the epoch budget and ends as `MAX_EPOCHS_REACHED` when it does not. -/
def trainStep (cfg : EarlyStoppingConfig) (epochs : ℕ) (loss : ℚ)
    (s : LoopState) : LoopState :=
  if s.status = TrainState.RUNNING then
    let r := esStep cfg s.es loss
    let sc := s.step_count + 1
    if r.2 then { step_count := sc, es := r.1, status := TrainState.STAGNATED }
    else if sc < epochs then { step_count := sc, es := r.1, status := TrainState.RUNNING }
    else { step_count := sc, es := r.1, status := TrainState.MAX_EPOCHS_REACHED }
  else s

/-- Modelled from the spec: iterate `trainStep` on the loss stream, one
loss per step index, for at most `fuel` steps. -/
def trainRun (cfg : EarlyStoppingConfig) (epochs : ℕ) (losses : ℕ → ℚ) :
    ℕ → LoopState → LoopState
  | 0, s => s
  | fuel + 1, s => trainRun cfg epochs losses fuel (trainStep cfg epochs (losses s.step_count) s)

/-- Modelled from the spec: the initial training state at construction. -/
def initLoopState : LoopState :=
  { step_count := 0
    es := { window := [], best_loss := none, no_improvement_count := 0,
            patience_count := 0, randomize_trigger_count := 0 }
    status := TrainState.RUNNING }

/-- Modelled from the spec: the whole training loop.  A zero epoch budget
runs no step and reports `MAX_EPOCHS_REACHED`; otherwise the loop runs
from the initial state for at most `epochs` steps. -/
def trainLoop (cfg : EarlyStoppingConfig) (epochs : ℕ) (losses : ℕ → ℚ) : LoopState :=
  if epochs = 0 then { initLoopState with status := TrainState.MAX_EPOCHS_REACHED }
  else trainRun cfg epochs losses epochs initLoopState

theorem trainRun_frozen (cfg : EarlyStoppingConfig) (epochs : ℕ) (losses : ℕ → ℚ)
    (fuel : ℕ) (s : LoopState) (h : s.status ≠ TrainState.RUNNING) :
    trainRun cfg epochs losses fuel s = s := by
  induction fuel generalizing s with
  | zero => rfl
  | succ n ih =>
      have hstep : trainStep cfg epochs (losses s.step_count) s = s := by
        simp [trainStep, h]
      simp [trainRun, hstep, ih s h]

theorem trainRun_terminates (cfg : EarlyStoppingConfig) (epochs : ℕ) (losses : ℕ → ℚ)
    (fuel : ℕ) (s : LoopState)
    (hle : s.step_count ≤ epochs)
    (hrun : s.status = TrainState.RUNNING → s.step_count + fuel = epochs ∧ s.step_count < epochs) :
    (trainRun cfg epochs losses fuel s).status ≠ TrainState.RUNNING ∧
      (trainRun cfg epochs losses fuel s).step_count ≤ epochs := by
  induction fuel generalizing s with
  | zero =>
      have hnot : s.status ≠ TrainState.RUNNING := by
        intro h
        have := hrun h
        omega
      exact ⟨hnot, hle⟩
  | succ n ih =>
      by_cases h : s.status = TrainState.RUNNING
      · have hcount := hrun h
        set s2 := trainStep cfg epochs (losses s.step_count) s with hs2
        have hsc : s2.step_count = s.step_count + 1 := by
          simp only [hs2, trainStep, h, if_true]
          by_cases hb : (esStep cfg s.es (losses s.step_count)).2
          · simp [hb]
          · by_cases hlt : s.step_count + 1 < epochs
            · simp [hb, hlt]
            · simp [hb, hlt]
        have hle2 : s2.step_count ≤ epochs := by omega
        have hrun2 : s2.status = TrainState.RUNNING →
            s2.step_count + n = epochs ∧ s2.step_count < epochs := by
          intro h2
          constructor
          · omega
          · by_contra hge
            have hge2 : ¬ s.step_count + 1 < epochs := by omega
            have : s2.status ≠ TrainState.RUNNING := by
              simp only [hs2, trainStep, h, if_true]
              by_cases hb : (esStep cfg s.es (losses s.step_count)).2
              · simp [hb]
              · simp [hb, hge2]
            exact this h2
        have := ih s2 hle2 hrun2
        simpa [trainRun, ← hs2] using this
      · have hfr := trainRun_frozen cfg epochs losses (n + 1) s h
        rw [hfr]
        exact ⟨h, hle⟩

theorem trainLoop_terminates (cfg : EarlyStoppingConfig) (epochs : ℕ) (losses : ℕ → ℚ) :
    (trainLoop cfg epochs losses).status ≠ TrainState.RUNNING ∧
      (trainLoop cfg epochs losses).step_count ≤ epochs := by
  by_cases h : epochs = 0
  · subst h
    constructor
    · intro hc
      simp [trainLoop, initLoopState] at hc
    · simp [trainLoop, initLoopState]
  · have h1 : 1 ≤ epochs := Nat.one_le_iff_ne_zero.mpr h
    have := trainRun_terminates cfg epochs losses epochs initLoopState
      (by simp [initLoopState]) (by intro _; simp [initLoopState]; omega)
    simpa [trainLoop, h] using this

theorem get_solution_ok {E : Type} (eq : E) (poynting_vec : List ℚ)
    (grid_training grid_test : List ℚ) (img_dir : String)
    (training_epochs : ℕ) (mode : String) :
    get_solution eq poynting_vec grid_training grid_test img_dir training_epochs mode =
      .ok
        { grid_training := { rows := grid_training.length, cols := 1, data := grid_training }
          grid_test := { rows := grid_test.length, cols := 1, data := grid_test }
          domain_variables :=
            [("y", { rows := grid_training.length, cols := 1, data := grid_training })]
          boundaries := set_boundary [0] [-1] default_variable_names
          equation_terms := [eq]
          net := if mode = "NN" ∨ mode = "autograd" then .network get_nn else .matModel
          compile_mode := mode
          lambda_operator := 1
          lambda_bound := 40
          es := { eps := 1 / 1000000, loss_window := 100,
                  no_improvement_patience := 1000, patience := 3,
                  randomize_parameter := 1 / 100000, info_string_every := 1000 }
          plots := { save_every := 1000, print_every := none, img_dir := img_dir }
          optimizer := { name := "Adam", lr := 1 / 1000 }
          training_epochs := training_epochs
          save_model := false } := by
  simp only [get_solution, get_grid_for_solver_numeric]
  rfl

theorem set_boundary_default_call :
    set_boundary [0] [-1] default_variable_names =
      [{ variable_name := "y", location := 0, target_value := -1 }] := by
  rfl

theorem trainLoop_status_cases (cfg : EarlyStoppingConfig) (epochs : ℕ) (losses : ℕ → ℚ) :
    (trainLoop cfg epochs losses).status = TrainState.CONVERGED ∨
    (trainLoop cfg epochs losses).status = TrainState.MAX_EPOCHS_REACHED ∨
    (trainLoop cfg epochs losses).status = TrainState.STAGNATED := by
  have h := (trainLoop_terminates cfg epochs losses).1
  cases hs : (trainLoop cfg epochs losses).status with
  | RUNNING => exact absurd hs h
  | CONVERGED => exact Or.inl rfl
  | MAX_EPOCHS_REACHED => exact Or.inr (Or.inl rfl)
  | STAGNATED => exact Or.inr (Or.inr rfl)

/-- C1 counterexample: on the mismatched parallel lists
`arg_values = [0, 1]` (length 2), `func_values = [-1]` (length 1) and
`variable_names = [y, z]` (length 2), `set_boundary` does not fail at all:
it silently returns a boundary-condition set (one Dirichlet condition),
refuting the claim that mismatched lengths fail with
`BoundaryLengthMismatchError`. -/
theorem c1_counterexample :
    set_boundary [0, 1] [-1] ["y", "z"] =
      [{ variable_name := "y", location := 0, target_value := -1 }] := by
  rfl

/-- C1 (amended): `set_boundary` never fails on length-mismatched inputs;
`zip` truncates to the shortest of the three sequences, so the call
produces exactly `min` of the three lengths many boundary conditions. -/
theorem c1_amended (arg_values func_values : List ℚ) (variable_names : List String) :
    (set_boundary arg_values func_values variable_names).length =
      min arg_values.length (min func_values.length variable_names.length) :=
  set_boundary_length arg_values func_values variable_names

/-- C2 counterexample: on the empty coordinate sequence,
`get_grid_for_solver` does not fail: `torch.tensor([[]])` succeeds and the
reshape returns an empty `0 x 1` grid, refuting the claim that the empty
sequence fails with `InvalidGridError` (no such error type exists in the
code). -/
theorem c2_counterexample :
    get_grid_for_solver ([] : List Entry) =
      .ok { rows := 0, cols := 1, data := [] } := by
  rfl

/-- C2 (amended): `get_grid_for_solver` returns an empty `0 x 1` grid on
the empty coordinate sequence; only a non-numeric entry makes it fail, and
then with torch's own tensor-construction `TypeError`, not an
`InvalidGridError`. -/
theorem c2_amended :
    get_grid_for_solver ([] : List Entry) = .ok { rows := 0, cols := 1, data := [] } ∧
    ∀ xs : List Entry, Entry.nonNum ∈ xs →
      get_grid_for_solver xs = .error TorchError.invalidDataType := by
  constructor
  · rfl
  · intro xs h
    simp only [get_grid_for_solver, extract_nums_err_of_nonNum xs h]
    rfl

/-- C2 witness: the concrete list `[1, non-numeric]` contains a
non-numeric entry and `get_grid_for_solver` fails on it with torch's
tensor-construction error. -/
theorem c2_witness :
    (Entry.nonNum ∈ [Entry.num 1, Entry.nonNum]) ∧
    get_grid_for_solver [Entry.num 1, Entry.nonNum] =
      .error TorchError.invalidDataType :=
  ⟨by decide, c2_amended.2 [Entry.num 1, Entry.nonNum] (by decide)⟩

/-- C3: for every non-empty numeric coordinate sequence of length `N`,
`get_grid_for_solver` returns the `N x 1` column tensor carrying the same
`N` values in the same order as the input. -/
theorem c3_grid_column_preserves_values (coordinates : List ℚ)
    (h : coordinates ≠ []) :
    get_grid_for_solver (coordinates.map Entry.num) =
      .ok { rows := coordinates.length, cols := 1, data := coordinates } :=
  get_grid_for_solver_numeric coordinates

/-- C3 witness: on the concrete non-empty sequence `[1, 2, 3]` the grid is
the `3 x 1` column holding `[1, 2, 3]`. -/
theorem c3_witness :
    (([1, 2, 3] : List ℚ) ≠ []) ∧
    get_grid_for_solver (([1, 2, 3] : List ℚ).map Entry.num) =
      .ok { rows := 3, cols := 1, data := [1, 2, 3] } :=
  ⟨by decide, c3_grid_column_preserves_values [1, 2, 3] (by decide)⟩

/-- C4: for equal-length parallel sequences of length `N` at least 1,
`set_boundary` produces exactly `N` boundary conditions, the `i`-th being
the Dirichlet condition built from the `i`-th input triple, so order is
preserved. -/
theorem c4_equal_lengths_order_preserved
    (arg_values func_values : List ℚ) (variable_names : List String)
    (hf : func_values.length = arg_values.length)
    (hv : variable_names.length = arg_values.length)
    (hN : 1 ≤ arg_values.length) :
    (set_boundary arg_values func_values variable_names).length = arg_values.length ∧
    ∀ i : ℕ, ∀ hi : i < arg_values.length,
      (set_boundary arg_values func_values variable_names).get
          ⟨i, by rw [set_boundary_length]; omega⟩ =
        { variable_name := variable_names.get ⟨i, by omega⟩,
          location := arg_values.get ⟨i, hi⟩,
          target_value := func_values.get ⟨i, by omega⟩ } := by
  constructor
  · rw [set_boundary_length]
    omega
  · intro i hi
    exact set_boundary_get arg_values func_values variable_names i _ hi
      (by omega) (by omega)

/-- C4 witness: on the concrete equal-length triple
`[0, 1]`, `[5, 6]`, `[u, w]` the call produces exactly 2 conditions. -/
theorem c4_witness :
    ([5, 6] : List ℚ).length = ([0, 1] : List ℚ).length ∧
    (["u", "w"] : List String).length = ([0, 1] : List ℚ).length ∧
    1 ≤ ([0, 1] : List ℚ).length ∧
    (set_boundary [0, 1] [5, 6] ["u", "w"]).length = ([0, 1] : List ℚ).length := by
  refine ⟨rfl, rfl, by decide, ?_⟩
  exact (c4_equal_lengths_order_preserved [0, 1] [5, 6] ["u", "w"] rfl rfl
    (by decide)).1

/-- C5: whenever `mode` is `NN` or `autograd`, `get_solution` builds the
`get_nn()` network, whose architecture is exactly a linear layer `1 -> 100`,
then twice `100 -> 100`, each hidden linear layer followed by a
hyperbolic-tangent activation, and a final linear layer `100 -> 1`; for
`mode` equal to `mat` the grid-based matrix model is used instead. -/
theorem c5_net_choice_and_architecture {E : Type} (eq : E) (poynting_vec : List ℚ)
    (grid_training grid_test : List ℚ) (img_dir : String) (training_epochs : ℕ) :
    (∀ mode : String, mode = "NN" ∨ mode = "autograd" →
      ∃ cfg : SolveConfig E,
        get_solution eq poynting_vec grid_training grid_test img_dir training_epochs mode =
          .ok cfg ∧
        cfg.net = NetChoice.network
          [Layer.linear 1 100, Layer.tanh,
           Layer.linear 100 100, Layer.tanh,
           Layer.linear 100 100, Layer.tanh,
           Layer.linear 100 1]) ∧
    (∃ cfg : SolveConfig E,
      get_solution eq poynting_vec grid_training grid_test img_dir training_epochs "mat" =
        .ok cfg ∧
      cfg.net = NetChoice.matModel) := by
  constructor
  · intro mode hmode
    refine ⟨_, get_solution_ok eq poynting_vec grid_training grid_test img_dir
      training_epochs mode, ?_⟩
    show (if mode = "NN" ∨ mode = "autograd" then NetChoice.network get_nn
          else NetChoice.matModel) = _
    rw [if_pos hmode]
    rfl
  · refine ⟨_, get_solution_ok eq poynting_vec grid_training grid_test img_dir
      training_epochs "mat", ?_⟩
    show (if ("mat" : String) = "NN" ∨ ("mat" : String) = "autograd"
          then NetChoice.network get_nn else NetChoice.matModel) = _
    rw [if_neg (by decide)]

/-- C5 witness: at the concrete mode `NN` the configuration carries the
`get_nn` architecture. -/
theorem c5_witness :
    ∃ cfg : SolveConfig ℕ,
      get_solution (0 : ℕ) [] [0] [0] "imgs" 10 "NN" = .ok cfg ∧
      cfg.net = NetChoice.network
        [Layer.linear 1 100, Layer.tanh,
         Layer.linear 100 100, Layer.tanh,
         Layer.linear 100 100, Layer.tanh,
         Layer.linear 100 1] :=
  (c5_net_choice_and_architecture (0 : ℕ) [] [0] [0] "imgs" 10).1 "NN" (Or.inl rfl)

/-- C6: every invocation of `get_solution` compiles the objective with the
fixed weights `lambda_operator = 1` and `lambda_bound = 40`, independent of
the inputs, so the composed scalar loss is the residual term plus 40 times
the boundary term. -/
theorem c6_fixed_lambda_weights {E : Type} (eq : E) (poynting_vec : List ℚ)
    (grid_training grid_test : List ℚ) (img_dir : String)
    (training_epochs : ℕ) (mode : String) :
    ∃ cfg : SolveConfig E,
      get_solution eq poynting_vec grid_training grid_test img_dir training_epochs mode =
        .ok cfg ∧
      cfg.lambda_operator = 1 ∧ cfg.lambda_bound = 40 ∧
      ∀ residual_loss boundary_loss : ℚ,
        composeLoss cfg.lambda_operator cfg.lambda_bound residual_loss boundary_loss =
          residual_loss + 40 * boundary_loss := by
  refine ⟨_, get_solution_ok eq poynting_vec grid_training grid_test img_dir
    training_epochs mode, rfl, rfl, ?_⟩
  intro residual_loss boundary_loss
  show composeLoss 1 40 residual_loss boundary_loss = _
  simp [composeLoss]

/-- C7: for every invocation of `get_solution`, the (spec-modelled)
training loop run on the early-stopping configuration it installs reaches
exactly one of the terminal states `CONVERGED`, `MAX_EPOCHS_REACHED`,
`STAGNATED` — never remaining `RUNNING` — and its step count at
termination is at most `training_epochs`, for every loss stream. -/
theorem c7_training_loop_terminates {E : Type} (eq : E) (poynting_vec : List ℚ)
    (grid_training grid_test : List ℚ) (img_dir : String)
    (training_epochs : ℕ) (mode : String) (losses : ℕ → ℚ) :
    ∃ cfg : SolveConfig E,
      get_solution eq poynting_vec grid_training grid_test img_dir training_epochs mode =
        .ok cfg ∧
      ((trainLoop cfg.es cfg.training_epochs losses).status = TrainState.CONVERGED ∨
       (trainLoop cfg.es cfg.training_epochs losses).status = TrainState.MAX_EPOCHS_REACHED ∨
       (trainLoop cfg.es cfg.training_epochs losses).status = TrainState.STAGNATED) ∧
      (trainLoop cfg.es cfg.training_epochs losses).step_count ≤ cfg.training_epochs :=
  ⟨_, get_solution_ok eq poynting_vec grid_training grid_test img_dir
      training_epochs mode,
    trainLoop_status_cases _ training_epochs losses,
    (trainLoop_terminates _ training_epochs losses).2⟩

/-- C8: two invocations of `get_solution` that agree on every argument
except `poynting_vec` construct identical solver configurations — the
domain, boundary conditions, equation, net choice, compile options,
callbacks, optimizer and epoch budget are all computed without reading
`poynting_vec`, so everything derived from them (training included) agrees
as well. -/
theorem c8_poynting_vec_no_influence {E : Type} (eq : E)
    (poynting_vec1 poynting_vec2 : List ℚ)
    (grid_training grid_test : List ℚ) (img_dir : String)
    (training_epochs : ℕ) (mode : String) :
    get_solution eq poynting_vec1 grid_training grid_test img_dir training_epochs mode =
      get_solution eq poynting_vec2 grid_training grid_test img_dir training_epochs mode :=
  rfl

/-- C9: a call to `set_boundary` that keeps the default `variable_names`
produces at most one boundary condition whatever the lengths of
`arg_values` and `func_values`: the default is the one-character string
`y`, over which `zip` yields at most one triple. -/
theorem c9_default_variable_names_at_most_one (arg_values func_values : List ℚ) :
    (set_boundary arg_values func_values default_variable_names).length ≤ 1 := by
  rw [set_boundary_length]
  simp only [default_variable_names, List.length_cons, List.length_nil]
  omega

/-- C10: every invocation of `get_solution` installs exactly one boundary
condition, the Dirichlet condition on variable `y` at location `0` with
target value `-1`, independent of all arguments. -/
theorem c10_hardcoded_boundary {E : Type} (eq : E) (poynting_vec : List ℚ)
    (grid_training grid_test : List ℚ) (img_dir : String)
    (training_epochs : ℕ) (mode : String) :
    ∃ cfg : SolveConfig E,
      get_solution eq poynting_vec grid_training grid_test img_dir training_epochs mode =
        .ok cfg ∧
      cfg.boundaries =
        [{ variable_name := "y", location := 0, target_value := -1 }] :=
  ⟨_, get_solution_ok eq poynting_vec grid_training grid_test img_dir
      training_epochs mode,
    set_boundary_default_call⟩
